import Mathlib

/-!
Shallow embedding of `src/app.py` (Erik's PDF compressor, a Flask app that
validates a PDF upload, shells out to Ghostscript, and serves the result).

Conventions of the embedding:
* Bytes are `Nat` (values 0..255); an uploaded file's content is a `List Nat`.
* A Python file-like object is a `ByteStream`: its data plus a cursor position.
* The temp directory `/tmp/pdf-compressor` is a list of `TempFile` records;
  each record carries its path, last-modified time (exact rational, standing
  for the float returned by `time.time`/`os.path.getmtime`), its content, and
  an `osErr` flag meaning "any `os` call on this file raises `OSError`"
  (modelling permission errors and races).
* Python float arithmetic in the QFactor formula is modelled by exact
  rational arithmetic over `ℚ`.
* The Ghostscript subprocess is an oracle: a `GsResult` (exit code, timeout,
  or launch failure) plus an `Option (List Nat)` saying whether the tool left
  an output file on disk and with which bytes.
* Unexpected exceptions inside the handler's `try` block are an oracle
  `ExcPoint` naming where (if anywhere) an exception is raised.
-/

namespace PdfCompressor

/-- A byte of file content. -/
abbrev Byte := Nat

/-- A Python file-like object: backing bytes plus the current seek position. -/
structure ByteStream where
  data : List Byte
  pos : Nat
  deriving DecidableEq, Repr

/-- `stream.read n`: returns up to `n` bytes from the current position and
advances the position by the number of bytes actually read. -/
def streamRead (s : ByteStream) (n : Nat) : List Byte × ByteStream :=
  ((s.data.drop s.pos).take n, ⟨s.data, min (s.pos + n) s.data.length⟩)

/-- `stream.seek p` (absolute). -/
def streamSeek (s : ByteStream) (p : Nat) : ByteStream :=
  ⟨s.data, p⟩

/-- `stream.seek 0 2` (seek to end), as used for the size probe. -/
def streamSeekEnd (s : ByteStream) : ByteStream :=
  ⟨s.data, s.data.length⟩

/-- `stream.tell()`. -/
def streamTell (s : ByteStream) : Nat := s.pos

/-- `MAX_FILE_SIZE = 250 * 1024 * 1024` (app.py line 22). -/
def MAX_FILE_SIZE : Nat := 250 * 1024 * 1024

/-- `TEMP_DIR = "/tmp/pdf-compressor"` (app.py line 23). -/
def TEMP_DIR : String := "/tmp/pdf-compressor"

/-- `ALLOWED_EXTENSIONS = {".pdf"}` (app.py line 24). -/
def ALLOWED_EXTENSIONS : List String := [".pdf"]

/-- `PDF_MAGIC_BYTES = b"%PDF-"` (app.py line 25): ASCII 0x25 0x50 0x44 0x46 0x2D. -/
def PDF_MAGIC_BYTES : List Byte := [37, 80, 68, 70, 45]

/-- `DPI_PRESETS` (app.py lines 35-40); `none` = "don't change". -/
def DPI_PRESETS : List (String × Option Nat) :=
  [("unchanged", none), ("print", some 300), ("ebook", some 150), ("screen", some 72)]

/-- `QUALITY_PRESETS` (app.py lines 43-47). -/
def QUALITY_PRESETS : List (String × Nat) :=
  [("very_high", 95), ("high", 80), ("medium", 60)]

/-- Python `dict.get(key)`: `none` when the key is absent. -/
def dictGet {α : Type} (d : List (String × α)) (k : String) : Option α :=
  match d with
  | [] => none
  | (k0, v) :: rest => if k = k0 then some v else dictGet rest k

/-- `str.rfind(c)` on a list of characters: index of the last occurrence of
`c`, or `-1` when absent. -/
def lastIdx (l : List Char) (c : Char) : Int :=
  (l.foldl (fun (acc : Int × Nat) ch =>
    (if ch = c then (acc.2 : Int) else acc.1, acc.2 + 1)) (-1, 0)).1

/-- `os.path.splitext` on POSIX (`sep = '/'`, no altsep, `extsep = '.'`),
over the character list of the path. CPython's `genericpath._splitext` walks
the basename from `sepIndex + 1` up to (excluding) `dotIndex` and splits at
`dotIndex` as soon as it meets a character other than `.`; that scan is the
`any` over the slice between the two indices. -/
def splitextChars (p : List Char) : List Char × List Char :=
  let sepIndex := lastIdx p '/'
  let dotIndex := lastIdx p '.'
  if sepIndex < dotIndex ∧
      ((p.drop (sepIndex + 1).toNat).take
        (dotIndex.toNat - (sepIndex + 1).toNat)).any (fun ch => ch ≠ '.') then
    (p.take dotIndex.toNat, p.drop dotIndex.toNat)
  else (p, [])

/-- `os.path.splitext` on a string. -/
def splitext (s : String) : String × String :=
  let r := splitextChars s.toList
  (String.mk r.1, String.mk r.2)

/-- Python `str.lower()`, character by character (faithful for the ASCII
strings the extension check compares). -/
def strLower (s : String) : String :=
  String.mk (s.toList.map Char.toLower)

/-- `is_valid_pdf(file_stream)` (app.py lines 83-87): read 5 bytes, seek back
to 0, compare against the magic; returns the verdict and the mutated stream. -/
def is_valid_pdf (s : ByteStream) : Bool × ByteStream :=
  let r := streamRead s 5
  let s1 := streamSeek r.2 0
  (r.1 = PDF_MAGIC_BYTES, s1)

/-- One uploaded file of a multipart request: the declared filename and the
byte stream (`werkzeug.FileStorage`). -/
structure UploadedFile where
  filename : String
  stream : ByteStream
  deriving DecidableEq, Repr

/-- The parts of a `/compress` request the handler reads: the optional
`file` part and the optional `dpi` / `quality` form fields. -/
structure Request where
  formFile : Option UploadedFile
  dpiField : Option String
  qualityField : Option String
  deriving DecidableEq, Repr

/-- The validation eliminations of the `compress` handler (app.py lines
570-596), in source order, short-circuiting on the first failure. On success
returns the file with its stream as the checks left it (position restored to
0 by `is_valid_pdf`). -/
def validateUpload (req : Request) : Except String UploadedFile :=
  match req.formFile with
  | none => .error "Keine Datei hochgeladen"
  | some file =>
    if file.filename = "" then .error "Keine Datei ausgewählt"
    else
      let ext := strLower (splitext file.filename).2
      if ext ∉ ALLOWED_EXTENSIONS then .error "Nur PDF-Dateien sind erlaubt"
      else
        let s0 := streamSeekEnd file.stream
        let size := streamTell s0
        let s1 := streamSeek s0 0
        if size > MAX_FILE_SIZE then .error "Datei ist zu groß (max. 250 MB)"
        else if size = 0 then .error "Datei ist leer"
        else
          let v := is_valid_pdf s1
          if ¬ v.1 then .error "Ungültige PDF-Datei"
          else .ok { file with stream := v.2 }

/-- `qfactor = (100 - jpeg_quality) / 100 * 0.9 + 0.1` (app.py line 93),
with the Python float expression modelled by exact rational arithmetic. -/
def qfactor (q : ℚ) : ℚ := (100 - q) / 100 * (9 / 10) + 1 / 10

/-- `dpi = DPI_PRESETS.get(dpi_preset)` where
`dpi_preset = request.form.get("dpi", "unchanged")` (app.py lines 599, 602). -/
def resolveDpi (field : Option String) : Option Nat :=
  (dictGet DPI_PRESETS (field.getD "unchanged")).getD none

/-- `jpeg_quality = QUALITY_PRESETS.get(quality_preset, 80)` where
`quality_preset = request.form.get("quality", "high")` (app.py lines 600, 603). -/
def resolveQuality (field : Option String) : Nat :=
  (dictGet QUALITY_PRESETS (field.getD "high")).getD 80

/-- One file of the temp directory: path, last-modified time (exact rational
in seconds), content, and whether `os` calls on it raise `OSError`. -/
structure TempFile where
  path : String
  mtime : ℚ
  content : List Byte
  osErr : Bool
  deriving DecidableEq, Repr

/-- The state of the temp directory `/tmp/pdf-compressor`. -/
abbrev FS := List TempFile

/-- `os.path.exists(p)`. -/
def os_path_exists (p : String) (fs : FS) : Bool :=
  fs.any (fun f => f.path = p)

/-- `os.remove(p)`: raises (`.error`) when the path is absent
(`FileNotFoundError`) or when the file's operations fail (`PermissionError`
and kin, both subclasses of `OSError`); otherwise drops every entry at `p`. -/
def osRemove (p : String) (fs : FS) : Except Unit FS :=
  match fs.find? (fun f => f.path = p) with
  | none => .error ()
  | some f => if f.osErr then .error () else .ok (fs.filter (fun g => g.path ≠ p))

/-- Writing a file (used for `file.save` and for the output Ghostscript
leaves behind): replaces any entry at the path. -/
def writeFile (p : String) (c : List Byte) (t : ℚ) (fs : FS) : FS :=
  fs.filter (fun g => g.path ≠ p) ++ [⟨p, t, c, false⟩]

/-- `safe_remove(filepath)` (app.py lines 143-149): `try: if filepath and
os.path.exists(filepath): os.remove(filepath) except OSError: pass`. -/
def safe_remove (p : String) (fs : FS) : FS :=
  if p ≠ "" ∧ os_path_exists p fs then
    match osRemove p fs with
    | .ok fs1 => fs1
    | .error _ => fs
  else fs

/-- `str.endswith(t)`, by comparing the trailing characters. -/
def strEndsWith (s t : String) : Bool :=
  s.toList.drop (s.toList.length - t.toList.length) = t.toList

/-- `glob.glob(os.path.join(TEMP_DIR, "*.pdf"))`: the paths of the tracked
files (our `FS` is the temp directory itself, so the pattern keeps the
entries whose name ends in `.pdf`). -/
def globPdf (fs : FS) : List String :=
  (fs.filter (fun f => strEndsWith f.path ".pdf")).map (fun f => f.path)

/-- One iteration of the `cleanup_old_files` loop body (app.py lines 57-61):
`try: if now - os.path.getmtime(filepath) > max_age_seconds:
os.remove(filepath) except OSError: pass`. A missing file makes `getmtime`
raise, an `osErr` file makes `getmtime`/`remove` raise; both are swallowed. -/
def cleanupFile (now maxAge : ℚ) (fs : FS) (p : String) : FS :=
  match fs.find? (fun f => f.path = p) with
  | none => fs
  | some f =>
    if f.osErr then fs
    else if now - f.mtime > maxAge then
      match osRemove p fs with
      | .ok fs1 => fs1
      | .error _ => fs
    else fs

/-- `cleanup_old_files(max_age_seconds=3600)` (app.py lines 53-61): the glob
list is computed once, then each path is processed in turn. -/
def cleanup_old_files (now maxAge : ℚ) (fs : FS) : FS :=
  (globPdf fs).foldl (cleanupFile now maxAge) fs

/-- `subprocess.run(cmd, capture_output=True, timeout=120)`'s outcome, as an
oracle for the external Ghostscript process. -/
inductive GsResult where
  | exited (code : Int)
  | timedOut
  | launchFailed
  deriving DecidableEq, Repr

/-- The hard wall-clock timeout handed to `subprocess.run` (app.py line 135). -/
def gsTimeoutSeconds : Nat := 120

/-- The value `compress_pdf` returns (app.py lines 134-140): `result.
returncode == 0`; `subprocess.TimeoutExpired` and every other launch
exception yield `False`. -/
def compress_pdf (r : GsResult) : Bool :=
  match r with
  | .exited code => code = 0
  | .timedOut => false
  | .launchFailed => false

/-- Where (if anywhere) an unexpected exception is raised inside the `try`
block of the handler: during `file.save`, or after the output-existence
check (while reading/serving the output). -/
inductive ExcPoint where
  | noExc
  | atSave
  | afterRead
  deriving DecidableEq, Repr

/-- A response of the `/compress` route: a JSON error with its HTTP status,
or the compressed bytes served from memory with the `X-Compressed-Size`
value. -/
inductive Resp where
  | jsonError (msg : String) (code : Nat)
  | pdfData (content : List Byte) (size : Nat)
  deriving DecidableEq, Repr

/-- `input_path = os.path.join(TEMP_DIR, f"{file_id}_input.pdf")`. -/
def inputPath (fileId : String) : String :=
  TEMP_DIR ++ "/" ++ fileId ++ "_input.pdf"

/-- `output_path = os.path.join(TEMP_DIR, f"{file_id}_output.pdf")`. -/
def outputPath (fileId : String) : String :=
  TEMP_DIR ++ "/" ++ fileId ++ "_output.pdf"

/-- The `/compress` handler (app.py lines 565-647). `authed` is the
`is_authenticated()` verdict, `fileId` the generated UUID, `gs` and
`produced` the Ghostscript oracle (exit status, and the output file the tool
left behind, if any), `exc` the unexpected-exception oracle, `now` the
wall-clock time stamped on files written during the request. Returns the
response and the final temp-directory state. -/
def compress (authed : Bool) (req : Request) (gs : GsResult)
    (produced : Option (List Byte)) (exc : ExcPoint) (fileId : String)
    (now : ℚ) (fs : FS) : Resp × FS :=
  if ¬ authed then (.jsonError "Nicht autorisiert" 401, fs)
  else
    match validateUpload req with
    | .error msg => (.jsonError msg 400, fs)
    | .ok file =>
      let _dpi := resolveDpi req.dpiField
      let _jpeg_quality := resolveQuality req.qualityField
      let inP := inputPath fileId
      let outP := outputPath fileId
      match exc with
      | .atSave =>
        -- `file.save` raises: the except-branch removes both paths.
        (.jsonError "Ein Fehler ist aufgetreten" 500,
          safe_remove outP (safe_remove inP fs))
      | _ =>
        let fs1 := writeFile inP (file.stream.data.drop file.stream.pos) now fs
        let fs2 := match produced with
          | some out => writeFile outP out now fs1
          | none => fs1
        if ¬ compress_pdf gs then
          (.jsonError "Komprimierung fehlgeschlagen" 500, fs2)
        else if ¬ os_path_exists outP fs2 then
          (.jsonError "Komprimierung fehlgeschlagen" 500, fs2)
        else
          match exc with
          | .afterRead =>
            (.jsonError "Ein Fehler ist aufgetreten" 500,
              safe_remove outP (safe_remove inP fs2))
          | _ =>
            let compressed :=
              ((fs2.find? (fun f => f.path = outP)).map TempFile.content).getD []
            let fs3 := safe_remove outP (safe_remove inP fs2)
            (.pdfData compressed compressed.length, fs3)

/-- Projects the validation verdict: the rejection reason, or `none` when the
upload passed. -/
def errOf {α : Type} (e : Except String α) : Option String :=
  match e with
  | .error m => some m
  | .ok _ => none

/-- Modelled from the spec's words (§4.2): the six validation checks as the
claim states them, written directly over the declared filename and the
upload's bytes, to be compared with `validateUpload` (which is translated
from the code and works through stream seeks and the extension-set
membership test). The reasons are the code's German strings; the claim's
English reasons ('no file uploaded', 'no file selected', 'only PDF files
allowed', 'file too large', 'file is empty', 'invalid PDF file') are their
respective translations. -/
def claimValidate (req : Request) : Option String :=
  match req.formFile with
  | none => some "Keine Datei hochgeladen"
  | some file =>
    if file.filename = "" then some "Keine Datei ausgewählt"
    else if strLower (splitext file.filename).2 ≠ ".pdf" then
      some "Nur PDF-Dateien sind erlaubt"
    else if 250 * 1024 * 1024 < file.stream.data.length then
      some "Datei ist zu groß (max. 250 MB)"
    else if file.stream.data.length = 0 then some "Datei ist leer"
    else if file.stream.data.take 5 ≠ [37, 80, 68, 70, 45] then
      some "Ungültige PDF-Datei"
    else none

end PdfCompressor

namespace PdfCompressor

/-- **C3.** For every quality `q` with `0 ≤ q ≤ 100`, the invoker computes
`qfactor = (100 - q) / 100 * 0.9 + 0.1` (modelled exactly over `ℚ`);
quality 100 maps to QFactor 0.1, quality 0 maps to QFactor 1.0, and the
mapping is strictly monotonically decreasing in `q`. -/
theorem qfactor_formula_and_monotone :
    qfactor 100 = 1 / 10 ∧ qfactor 0 = 1 ∧
    ∀ q1 q2 : ℚ, 0 ≤ q1 → q1 < q2 → q2 ≤ 100 → qfactor q2 < qfactor q1 := by
  refine ⟨by norm_num [qfactor], by norm_num [qfactor], ?_⟩
  intro q1 q2 _ h _
  simp only [qfactor]
  linarith

/-- Witness for `qfactor_formula_and_monotone` at `q1 = 0`, `q2 = 100`. -/
theorem qfactor_formula_and_monotone_witness :
    (0 : ℚ) ≤ 0 ∧ (0 : ℚ) < 100 ∧ (100 : ℚ) ≤ 100 ∧ qfactor 100 < qfactor 0 :=
  ⟨le_refl 0, by norm_num, le_refl 100,
    qfactor_formula_and_monotone.2.2 0 100 (le_refl 0) (by norm_num) (le_refl 100)⟩

/-- **C4, counterexample.** The 'high' preset is quality 80, but
`qfactor 80 = 0.28`, not approximately `0.19`: it misses `0.19` by `0.09`,
far outside any reading of `≈` (the spec's `0.19` is `qfactor 90`). -/
theorem quality80_qfactor_counterexample :
    resolveQuality (some "high") = 80 ∧ qfactor 80 = 7 / 25 ∧
    (7 : ℚ) / 25 ≠ 19 / 100 ∧ (19 : ℚ) / 100 + 9 / 100 = 7 / 25 := by
  refine ⟨rfl, by norm_num [qfactor], by norm_num, by norm_num⟩

/-- **C4, amended.** The quality-to-QFactor mapping sends quality 80 (the
'high' preset) to a QFactor of 0.28. -/
theorem quality80_qfactor_value :
    resolveQuality (some "high") = 80 ∧ qfactor 80 = 7 / 25 :=
  ⟨rfl, by norm_num [qfactor]⟩

/-- **C8.** The magic-byte check accepts, at stream position 0, exactly the
uploads whose first 5 bytes are ASCII `%PDF-`, and for every stream (accepted
or rejected, any starting position) it returns with the position restored to
offset 0 and the data untouched. -/
theorem magic_byte_check_spec :
    (∀ data : List Byte,
      ((is_valid_pdf ⟨data, 0⟩).1 = true ↔ data.take 5 = PDF_MAGIC_BYTES)) ∧
    (∀ s : ByteStream, (is_valid_pdf s).2 = ⟨s.data, 0⟩) := by
  constructor
  · intro data
    simp [is_valid_pdf, streamRead, streamSeek]
  · intro s
    simp [is_valid_pdf, streamRead, streamSeek]

/-- Witness for `magic_byte_check_spec`: a stream whose first 5 bytes are
the magic is accepted, and a short stream at a nonzero position is rewound. -/
theorem magic_byte_check_spec_witness :
    (is_valid_pdf ⟨[37, 80, 68, 70, 45, 9], 0⟩).1 = true ∧
    (is_valid_pdf ⟨[1, 2], 7⟩).2 = ⟨[1, 2], 0⟩ :=
  ⟨(magic_byte_check_spec.1 [37, 80, 68, 70, 45, 9]).mpr (by decide),
    magic_byte_check_spec.2 ⟨[1, 2], 7⟩⟩

/-- **C10.** `os.path.splitext` treats the whole of `.pdf` as a dotfile base
name with an empty extension, so an upload declared exactly as `.pdf` is
rejected with the only-PDF-files reason (the code's German string for
'only PDF files allowed'), whatever its bytes. -/
theorem dotfile_pdf_rejected :
    splitext ".pdf" = (".pdf", "") ∧
    ∀ (data : List Byte) (pos : Nat) (d q : Option String),
      errOf (validateUpload ⟨some ⟨".pdf", ⟨data, pos⟩⟩, d, q⟩) =
        some "Nur PDF-Dateien sind erlaubt" := by
  exact ⟨rfl, fun data pos d q => rfl⟩

/-- **C2.** The validator applies exactly the six checks in source order,
short-circuiting on the first failure, with the six distinct reasons (German
strings of the code; the ceiling is `250 MiB = 250 * 1024 * 1024` bytes,
the magic is the 5 ASCII bytes of `%PDF-`): the code's stream-threaded
validation agrees everywhere with the claim's direct byte-level statement. -/
theorem validator_six_checks_in_order (req : Request) :
    errOf (validateUpload req) = claimValidate req := by
  rcases req with ⟨ff, d, q⟩
  cases ff with
  | none => rfl
  | some file =>
    rcases file with ⟨name, data, pos⟩
    simp only [validateUpload, claimValidate, errOf, ALLOWED_EXTENSIONS, MAX_FILE_SIZE,
      streamSeekEnd, streamTell, streamSeek, is_valid_pdf, streamRead, PDF_MAGIC_BYTES,
      List.mem_singleton, List.drop_zero, gt_iff_lt]
    split_ifs <;> simp_all

/-- **C6.** Preset resolution is total: an absent or unrecognized resolution
field resolves to `unchanged` (no DPI change) and an absent or unrecognized
quality field resolves to `high` (quality 80); the recognized presets map to
300/150/72 DPI and 95/80/60 quality. -/
theorem preset_resolution_total :
    resolveDpi none = none ∧ resolveDpi (some "unchanged") = none ∧
    resolveDpi (some "print") = some 300 ∧ resolveDpi (some "ebook") = some 150 ∧
    resolveDpi (some "screen") = some 72 ∧
    (∀ s : String, s ∉ ["unchanged", "print", "ebook", "screen"] →
      resolveDpi (some s) = none) ∧
    resolveQuality none = 80 ∧ resolveQuality (some "very_high") = 95 ∧
    resolveQuality (some "high") = 80 ∧ resolveQuality (some "medium") = 60 ∧
    (∀ s : String, s ∉ ["very_high", "high", "medium"] → resolveQuality (some s) = 80) := by
  refine ⟨rfl, rfl, rfl, rfl, rfl, ?_, rfl, rfl, rfl, rfl, ?_⟩
  · intro s hs
    simp only [List.mem_cons, List.not_mem_nil, or_false, not_or] at hs
    obtain ⟨h1, h2, h3, h4⟩ := hs
    simp [resolveDpi, dictGet, DPI_PRESETS, h1, h2, h3, h4]
  · intro s hs
    simp only [List.mem_cons, List.not_mem_nil, or_false, not_or] at hs
    obtain ⟨h1, h2, h3⟩ := hs
    simp [resolveQuality, dictGet, QUALITY_PRESETS, h1, h2, h3]

lemma any_of_same {α : Type} (l : List α) (f g : α → Bool) (h : ∀ a, f a = g a) :
    l.any f = l.any g := by
  induction l with
  | nil => rfl
  | cons a rest ih => simp [List.any_cons, h a, ih]

lemma any_filter_eq {α : Type} (l : List α) (f g : α → Bool) :
    (l.filter f).any g = l.any (fun a => f a && g a) := by
  induction l with
  | nil => rfl
  | cons a rest ih =>
    by_cases hf : f a = true
    · simp [List.filter_cons, hf, List.any_cons, ih]
    · simp only [Bool.not_eq_true] at hf
      simp [List.filter_cons, hf, List.any_cons, ih]

lemma os_path_exists_filter_self (p : String) (fs : FS) :
    os_path_exists p (fs.filter (fun g => g.path ≠ p)) = false := by
  simp only [os_path_exists, any_filter_eq]
  simp

lemma os_path_exists_filter_ne (p q : String) (h : p ≠ q) (fs : FS) :
    os_path_exists p (fs.filter (fun g => g.path ≠ q)) = os_path_exists p fs := by
  simp only [os_path_exists, any_filter_eq]
  apply any_of_same
  intro f
  by_cases hf : f.path = p
  · have : f.path ≠ q := fun hq => h (hf ▸ hq)
    simp only [hf]
    simp [h]
  · simp [hf]

lemma os_path_exists_writeFile_self (p : String) (c : List Byte) (t : ℚ) (fs : FS) :
    os_path_exists p (writeFile p c t fs) = true := by
  simp [os_path_exists, writeFile, List.any_append]

lemma os_path_exists_writeFile_ne (p q : String) (h : p ≠ q) (c : List Byte)
    (t : ℚ) (fs : FS) :
    os_path_exists p (writeFile q c t fs) = os_path_exists p fs := by
  have h2 : (decide (q = p)) = false := decide_eq_false (fun hq => h hq.symm)
  simp only [os_path_exists, writeFile, List.any_append, List.any_cons, List.any_nil,
    h2, Bool.or_false]
  exact os_path_exists_filter_ne p q h fs

lemma mem_writeFile {f : TempFile} (p : String) (c : List Byte) (t : ℚ) (fs : FS) :
    f ∈ writeFile p c t fs ↔ (f ∈ fs ∧ f.path ≠ p) ∨ f = ⟨p, t, c, false⟩ := by
  simp [writeFile, List.mem_append, List.mem_filter]

lemma safe_remove_eq_or (p : String) (fs : FS) :
    safe_remove p fs = fs ∨ safe_remove p fs = fs.filter (fun g => g.path ≠ p) := by
  unfold safe_remove
  split_ifs with h
  · cases hfind : fs.find? (fun f => decide (f.path = p)) with
    | none => left; simp [osRemove, hfind]
    | some f =>
      by_cases he : f.osErr = true
      · left; simp [osRemove, hfind, he]
      · right; simp only [Bool.not_eq_true] at he
        simp [osRemove, hfind, he]
  · exact Or.inl rfl

lemma safe_remove_not_exists (p : String) (fs : FS)
    (h : os_path_exists p fs = false) : safe_remove p fs = fs := by
  unfold safe_remove
  rw [if_neg]
  intro hc
  rw [h] at hc
  exact absurd hc.2 (by simp)

lemma safe_remove_subset (p : String) (fs : FS) :
    ∀ f ∈ safe_remove p fs, f ∈ fs := by
  rcases safe_remove_eq_or p fs with h | h <;> rw [h]
  · intro f hf; exact hf
  · intro f hf; exact (List.mem_filter.mp hf).1

lemma os_path_exists_safe_remove_ne (p q : String) (h : p ≠ q) (fs : FS) :
    os_path_exists p (safe_remove q fs) = os_path_exists p fs := by
  rcases safe_remove_eq_or q fs with hq | hq <;> rw [hq]
  exact os_path_exists_filter_ne p q h fs

lemma safe_remove_removes (p : String) (fs : FS) (hp : p ≠ "")
    (hall : ∀ f ∈ fs, f.path = p → f.osErr = false) :
    os_path_exists p (safe_remove p fs) = false := by
  by_cases hex : os_path_exists p fs = true
  · have hsome : (fs.find? (fun f => decide (f.path = p))).isSome := by
      rw [List.find?_isSome]
      simp only [os_path_exists, List.any_eq_true] at hex
      obtain ⟨f, hmem, hfp⟩ := hex
      exact ⟨f, hmem, hfp⟩
    obtain ⟨f, hfind⟩ := Option.isSome_iff_exists.mp hsome
    have hmem : f ∈ fs := List.mem_of_find?_eq_some hfind
    have hfp : f.path = p := by
      have := List.find?_some hfind
      simpa using this
    have herr : f.osErr = false := hall f hmem hfp
    unfold safe_remove osRemove
    rw [if_pos ⟨hp, hex⟩, hfind]
    simp only [herr, Bool.false_eq_true, if_false]
    exact os_path_exists_filter_self p fs
  · rw [safe_remove_not_exists p fs (by simpa using hex)]
    simpa using hex

/-- Witness for `preset_resolution_total` at the unrecognized preset
`"bogus"`. -/
theorem preset_resolution_total_witness :
    "bogus" ∉ (["unchanged", "print", "ebook", "screen"] : List String) ∧
    resolveDpi (some "bogus") = none ∧
    "bogus" ∉ (["very_high", "high", "medium"] : List String) ∧
    resolveQuality (some "bogus") = 80 :=
  ⟨by decide, preset_resolution_total.2.2.2.2.2.1 "bogus" (by decide),
   by decide, preset_resolution_total.2.2.2.2.2.2.2.2.2.2 "bogus" (by decide)⟩

/-- **C7.** Every upload the validator rejects terminates the request with
the structured 400 error carrying its rejection reason, and the temp
directory is returned exactly as it was: no temp file is written and no temp
pair is allocated, whatever the Ghostscript/exception oracles would have
done. -/
theorem rejected_upload_no_fs_change (req : Request) (gs : GsResult)
    (produced : Option (List Byte)) (exc : ExcPoint) (fileId : String)
    (now : ℚ) (fs : FS) (msg : String)
    (h : validateUpload req = .error msg) :
    compress true req gs produced exc fileId now fs = (.jsonError msg 400, fs) := by
  simp [compress, h]

/-- Witness for `rejected_upload_no_fs_change`: a request with no `file`
field is rejected and leaves a nonempty temp directory untouched. -/
theorem rejected_upload_no_fs_change_witness :
    validateUpload ⟨none, none, none⟩ = .error "Keine Datei hochgeladen" ∧
    compress true ⟨none, none, none⟩ (.exited 0) (some [1]) .noExc "w7" 0
        [⟨"/tmp/pdf-compressor/old.pdf", 0, [], false⟩] =
      (.jsonError "Keine Datei hochgeladen" 400,
        [⟨"/tmp/pdf-compressor/old.pdf", 0, [], false⟩]) :=
  ⟨rfl, rejected_upload_no_fs_change ⟨none, none, none⟩ (.exited 0) (some [1]) .noExc
    "w7" 0 [⟨"/tmp/pdf-compressor/old.pdf", 0, [], false⟩] "Keine Datei hochgeladen" rfl⟩

/-- **C5.** The invoker's outcome mapping: exit code zero → success; non-zero
exit, elapsed timeout (the subprocess timeout is 120 seconds), and launch
failure → failure; and in the handler, both a failed invocation and a
reported success without an existing output file yield the same generic
500 response (the code's German string for 'compression failed'). -/
theorem gs_outcome_mapping :
    compress_pdf (.exited 0) = true ∧
    (∀ c : Int, c ≠ 0 → compress_pdf (.exited c) = false) ∧
    compress_pdf .timedOut = false ∧
    compress_pdf .launchFailed = false ∧
    gsTimeoutSeconds = 120 ∧
    (∀ (req : Request) (file : UploadedFile) (gs : GsResult)
        (produced : Option (List Byte)) (fileId : String) (now : ℚ) (fs : FS),
      validateUpload req = .ok file → compress_pdf gs = false →
      (compress true req gs produced .noExc fileId now fs).1 =
        .jsonError "Komprimierung fehlgeschlagen" 500) ∧
    (∀ (req : Request) (file : UploadedFile) (gs : GsResult)
        (fileId : String) (now : ℚ) (fs : FS),
      validateUpload req = .ok file → compress_pdf gs = true →
      os_path_exists (outputPath fileId) fs = false →
      (compress true req gs none .noExc fileId now fs).1 =
        .jsonError "Komprimierung fehlgeschlagen" 500) := by
  refine ⟨rfl, ?_, rfl, rfl, rfl, ?_, ?_⟩
  · intro c hc
    simp [compress_pdf, hc]
  · intro req file gs produced fileId now fs hv hgs
    cases produced <;> simp [compress, hv, hgs]
  · intro req file gs fileId now fs hv hgs hout
    have hne : outputPath fileId ≠ inputPath fileId := by
      intro hcontra
      have := congrArg String.length hcontra
      simp [inputPath, outputPath, String.length_append] at this
      exact absurd this (by decide)
    have hex : os_path_exists (outputPath fileId)
        (writeFile (inputPath fileId) (file.stream.data.drop file.stream.pos) now fs) =
          false := by
      rw [os_path_exists_writeFile_ne _ _ hne]
      exact hout
    simp [compress, hv, hgs, hex]

/-- Witness for `gs_outcome_mapping`: a valid upload with a non-zero tool
exit, and a valid upload with exit 0 but no produced output, both get the
generic 500. -/
theorem gs_outcome_mapping_witness :
    validateUpload ⟨some ⟨"a.pdf", ⟨[37, 80, 68, 70, 45], 0⟩⟩, none, none⟩ =
      .ok ⟨"a.pdf", ⟨[37, 80, 68, 70, 45], 0⟩⟩ ∧
    (1 : Int) ≠ 0 ∧ compress_pdf (.exited 1) = false ∧
    (compress true ⟨some ⟨"a.pdf", ⟨[37, 80, 68, 70, 45], 0⟩⟩, none, none⟩
        (.exited 1) none .noExc "w5" 0 []).1 =
      .jsonError "Komprimierung fehlgeschlagen" 500 ∧
    compress_pdf (.exited 0) = true ∧
    os_path_exists (outputPath "w5") [] = false ∧
    (compress true ⟨some ⟨"a.pdf", ⟨[37, 80, 68, 70, 45], 0⟩⟩, none, none⟩
        (.exited 0) none .noExc "w5" 0 []).1 =
      .jsonError "Komprimierung fehlgeschlagen" 500 :=
  ⟨rfl, by decide, gs_outcome_mapping.2.1 1 (by decide), gs_outcome_mapping.2.2.2.2.2.1
      ⟨some ⟨"a.pdf", ⟨[37, 80, 68, 70, 45], 0⟩⟩, none, none⟩
      ⟨"a.pdf", ⟨[37, 80, 68, 70, 45], 0⟩⟩ (.exited 1) none "w5" 0 [] rfl rfl,
    rfl, rfl, gs_outcome_mapping.2.2.2.2.2.2
      ⟨some ⟨"a.pdf", ⟨[37, 80, 68, 70, 45], 0⟩⟩, none, none⟩
      ⟨"a.pdf", ⟨[37, 80, 68, 70, 45], 0⟩⟩ (.exited 0) "w5" 0 [] rfl rfl rfl⟩

lemma inputPath_ne_outputPath (fileId : String) :
    inputPath fileId ≠ outputPath fileId := by
  intro h
  have hl := congrArg String.length h
  simp only [inputPath, outputPath, String.length_append] at hl
  have h10 : "_input.pdf".length = 10 := rfl
  have h11 : "_output.pdf".length = 11 := rfl
  omega

lemma inputPath_ne_empty (fileId : String) : inputPath fileId ≠ "" := by
  intro h
  have hl := congrArg String.length h
  simp only [inputPath, String.length_append] at hl
  have h10 : "_input.pdf".length = 10 := rfl
  have h0 : ("" : String).length = 0 := rfl
  omega

lemma outputPath_ne_empty (fileId : String) : outputPath fileId ≠ "" := by
  intro h
  have hl := congrArg String.length h
  simp only [outputPath, String.length_append] at hl
  have h11 : "_output.pdf".length = 11 := rfl
  have h0 : ("" : String).length = 0 := rfl
  omega

lemma osErr_false_at_writeFile_self (p : String) (c : List Byte) (t : ℚ) (fs : FS) :
    ∀ f ∈ writeFile p c t fs, f.path = p → f.osErr = false := by
  intro f hf hfp
  rcases (mem_writeFile p c t fs).mp hf with ⟨_, hne⟩ | rfl
  · exact absurd hfp hne
  · rfl

lemma osErr_false_at_writeFile_other (p q : String) (c : List Byte) (t : ℚ) (fs : FS)
    (h : ∀ f ∈ fs, f.path = p → f.osErr = false) :
    ∀ f ∈ writeFile q c t fs, f.path = p → f.osErr = false := by
  intro f hf hfp
  rcases (mem_writeFile q c t fs).mp hf with ⟨hmem, _⟩ | rfl
  · exact h f hmem hfp
  · rfl

lemma cleanup_pair_removed (fileId : String) (fs2 : FS)
    (hosErrIn : ∀ f ∈ fs2, f.path = inputPath fileId → f.osErr = false)
    (hosErrOut : ∀ f ∈ fs2, f.path = outputPath fileId → f.osErr = false) :
    os_path_exists (inputPath fileId)
      (safe_remove (outputPath fileId) (safe_remove (inputPath fileId) fs2)) = false ∧
    os_path_exists (outputPath fileId)
      (safe_remove (outputPath fileId) (safe_remove (inputPath fileId) fs2)) = false := by
  constructor
  · rw [os_path_exists_safe_remove_ne _ _ (inputPath_ne_outputPath fileId)]
    exact safe_remove_removes _ _ (inputPath_ne_empty fileId) hosErrIn
  · apply safe_remove_removes _ _ (outputPath_ne_empty fileId)
    intro f hf hfp
    exact hosErrOut f (safe_remove_subset _ _ f hf) hfp

/-- **C1, counterexample.** A request that passes validation and whose
Ghostscript run exits non-zero gets the generic 500 response with the saved
input temp file still present in the temp directory: the handler returns at
the failure branch without any cleanup, refuting the removal-on-every-outcome
claim. -/
theorem temp_pair_removed_counterexample :
    (compress true ⟨some ⟨"a.pdf", ⟨[37, 80, 68, 70, 45], 0⟩⟩, none, none⟩
        (.exited 1) none .noExc "c1" 0 []).1 =
      .jsonError "Komprimierung fehlgeschlagen" 500 ∧
    os_path_exists (inputPath "c1")
      (compress true ⟨some ⟨"a.pdf", ⟨[37, 80, 68, 70, 45], 0⟩⟩, none, none⟩
        (.exited 1) none .noExc "c1" 0 []).2 = true :=
  ⟨rfl, rfl⟩

/-- **C1, amended.** For every request that reaches the invoker (validation
passed; the pair's paths are fresh, i.e. not yet in the temp directory):
both temp paths are removed before the response on the success outcome
(zero exit with an output file produced) and when an unexpected exception is
raised inside the handler's try block; but on compressor failure (non-zero
exit, timeout, or launch failure) and on a missing output file after a
reported success, the handler responds without removing the saved input temp
file — it stays on disk (until the startup sweep). -/
theorem temp_pair_removed_amended (req : Request) (file : UploadedFile)
    (gs : GsResult) (produced : Option (List Byte)) (exc : ExcPoint)
    (fileId : String) (now : ℚ) (fs : FS)
    (hv : validateUpload req = .ok file)
    (hin : os_path_exists (inputPath fileId) fs = false)
    (hout : os_path_exists (outputPath fileId) fs = false) :
    ((exc = .atSave ∨ (compress_pdf gs = true ∧ produced.isSome = true)) →
      os_path_exists (inputPath fileId)
        (compress true req gs produced exc fileId now fs).2 = false ∧
      os_path_exists (outputPath fileId)
        (compress true req gs produced exc fileId now fs).2 = false) ∧
    ((exc ≠ .atSave ∧ (compress_pdf gs = false ∨ produced = none)) →
      os_path_exists (inputPath fileId)
        (compress true req gs produced exc fileId now fs).2 = true) := by
  have hne : inputPath fileId ≠ outputPath fileId := inputPath_ne_outputPath fileId
  have hne2 : outputPath fileId ≠ inputPath fileId := fun h => hne h.symm
  have hatSave : os_path_exists (inputPath fileId)
        (safe_remove (outputPath fileId) (safe_remove (inputPath fileId) fs)) = false ∧
      os_path_exists (outputPath fileId)
        (safe_remove (outputPath fileId) (safe_remove (inputPath fileId) fs)) = false := by
    rw [safe_remove_not_exists _ _ hin, safe_remove_not_exists _ _ hout]
    exact ⟨hin, hout⟩
  have hselfIn : ∀ c : List Byte,
      os_path_exists (inputPath fileId) (writeFile (inputPath fileId) c now fs) = true :=
    fun c => os_path_exists_writeFile_self _ _ _ _
  have hselfInNest : ∀ c1 c2 : List Byte,
      os_path_exists (inputPath fileId)
        (writeFile (outputPath fileId) c1 now (writeFile (inputPath fileId) c2 now fs)) =
        true := by
    intro c1 c2
    rw [os_path_exists_writeFile_ne _ _ hne]
    exact os_path_exists_writeFile_self _ _ _ _
  have houtAfterIn : ∀ c : List Byte,
      os_path_exists (outputPath fileId) (writeFile (inputPath fileId) c now fs) =
        false := by
    intro c
    rw [os_path_exists_writeFile_ne _ _ hne2]
    exact hout
  have hselfOutNest : ∀ c1 c2 : List Byte,
      os_path_exists (outputPath fileId)
        (writeFile (outputPath fileId) c1 now (writeFile (inputPath fileId) c2 now fs)) =
        true :=
    fun c1 c2 => os_path_exists_writeFile_self _ _ _ _
  have hpair : ∀ c1 c2 : List Byte,
      os_path_exists (inputPath fileId)
        (safe_remove (outputPath fileId) (safe_remove (inputPath fileId)
          (writeFile (outputPath fileId) c1 now (writeFile (inputPath fileId) c2 now fs)))) =
        false ∧
      os_path_exists (outputPath fileId)
        (safe_remove (outputPath fileId) (safe_remove (inputPath fileId)
          (writeFile (outputPath fileId) c1 now (writeFile (inputPath fileId) c2 now fs)))) =
        false := by
    intro c1 c2
    apply cleanup_pair_removed
    · exact osErr_false_at_writeFile_other _ _ _ _ _
        (osErr_false_at_writeFile_self _ _ _ _)
    · exact osErr_false_at_writeFile_self _ _ _ _
  constructor
  · rintro (rfl | ⟨hgs, hps⟩)
    · simp only [compress, hv]
      simpa using hatSave
    · obtain ⟨out, rfl⟩ := Option.isSome_iff_exists.mp hps
      cases exc with
      | atSave =>
        simp only [compress, hv]
        simpa using hatSave
      | noExc =>
        simp only [compress, hv]
        simp [hgs, hselfOutNest]
        exact hpair out _
      | afterRead =>
        simp only [compress, hv]
        simp [hgs, hselfOutNest]
        exact hpair out _
  · rintro ⟨hexc, hfail⟩
    by_cases hgs : compress_pdf gs = true
    · have hpn : produced = none := by
        rcases hfail with h | h
        · rw [hgs] at h
          exact absurd h (by simp)
        · exact h
      subst hpn
      cases exc with
      | atSave => exact absurd rfl hexc
      | noExc =>
        simp only [compress, hv]
        simp [hgs, houtAfterIn, hselfIn]
      | afterRead =>
        simp only [compress, hv]
        simp [hgs, houtAfterIn, hselfIn]
    · have hgs2 : compress_pdf gs = false := by
        simpa using hgs
      cases exc with
      | atSave => exact absurd rfl hexc
      | noExc =>
        cases produced with
        | none =>
          simp only [compress, hv]
          simp [hgs2, hselfIn]
        | some out =>
          simp only [compress, hv]
          simp [hgs2, hselfInNest]
      | afterRead =>
        cases produced with
        | none =>
          simp only [compress, hv]
          simp [hgs2, hselfIn]
        | some out =>
          simp only [compress, hv]
          simp [hgs2, hselfInNest]

/-- Witness for `temp_pair_removed_amended`: a fresh valid request whose
tool run succeeds and produces output has both temp paths gone afterwards. -/
theorem temp_pair_removed_amended_witness :
    validateUpload ⟨some ⟨"a.pdf", ⟨[37, 80, 68, 70, 45], 0⟩⟩, none, none⟩ =
      .ok ⟨"a.pdf", ⟨[37, 80, 68, 70, 45], 0⟩⟩ ∧
    os_path_exists (inputPath "w1") [] = false ∧
    os_path_exists (outputPath "w1") [] = false ∧
    (os_path_exists (inputPath "w1")
        (compress true ⟨some ⟨"a.pdf", ⟨[37, 80, 68, 70, 45], 0⟩⟩, none, none⟩
          (.exited 0) (some [1, 2]) .noExc "w1" 0 []).2 = false ∧
      os_path_exists (outputPath "w1")
        (compress true ⟨some ⟨"a.pdf", ⟨[37, 80, 68, 70, 45], 0⟩⟩, none, none⟩
          (.exited 0) (some [1, 2]) .noExc "w1" 0 []).2 = false) :=
  ⟨rfl, rfl, rfl,
    (temp_pair_removed_amended ⟨some ⟨"a.pdf", ⟨[37, 80, 68, 70, 45], 0⟩⟩, none, none⟩
        ⟨"a.pdf", ⟨[37, 80, 68, 70, 45], 0⟩⟩ (.exited 0) (some [1, 2]) .noExc "w1" 0 []
        rfl rfl rfl).1 (Or.inr ⟨rfl, rfl⟩)⟩

lemma cleanupFile_eq_or (now maxAge : ℚ) (fs : FS) (p : String) :
    cleanupFile now maxAge fs p = fs ∨
    cleanupFile now maxAge fs p = fs.filter (fun g => g.path ≠ p) := by
  unfold cleanupFile
  cases hfind : fs.find? (fun f => decide (f.path = p)) with
  | none => exact Or.inl rfl
  | some f =>
    by_cases he : f.osErr = true
    · left
      simp [he]
    · simp only [Bool.not_eq_true] at he
      by_cases hold : now - f.mtime > maxAge
      · right
        simp [he, hold, osRemove, hfind]
      · left
        simp [he, hold]

lemma cleanupFile_sublist (now maxAge : ℚ) (fs : FS) (p : String) :
    (cleanupFile now maxAge fs p).Sublist fs := by
  rcases cleanupFile_eq_or now maxAge fs p with h | h <;> rw [h]
  exact List.filter_sublist fs

lemma foldl_cleanupFile_sublist (now maxAge : ℚ) :
    ∀ (l : List String) (fs : FS), (l.foldl (cleanupFile now maxAge) fs).Sublist fs := by
  intro l
  induction l with
  | nil =>
    intro fs
    exact List.Sublist.refl fs
  | cons p rest ih =>
    intro fs
    simp only [List.foldl_cons]
    exact (ih (cleanupFile now maxAge fs p)).trans (cleanupFile_sublist now maxAge fs p)

lemma pathsNodup_cleanupFile (now maxAge : ℚ) (fs : FS) (p : String)
    (h : (fs.map TempFile.path).Nodup) :
    ((cleanupFile now maxAge fs p).map TempFile.path).Nodup := by
  rcases cleanupFile_eq_or now maxAge fs p with heq | heq <;> rw [heq]
  · exact h
  · exact List.Nodup.sublist (List.Sublist.map TempFile.path (List.filter_sublist fs)) h

lemma mem_cleanupFile (now maxAge : ℚ) (fs : FS) (p : String)
    (hnd : (fs.map TempFile.path).Nodup)
    (hp : strEndsWith p ".pdf" = true)
    (f : TempFile) (hf : f ∈ fs)
    (hcond : ¬(strEndsWith f.path ".pdf" = true ∧ f.osErr = false ∧
      now - f.mtime > maxAge)) :
    f ∈ cleanupFile now maxAge fs p := by
  unfold cleanupFile
  cases hfind : fs.find? (fun g => decide (g.path = p)) with
  | none => exact hf
  | some g =>
    by_cases he : g.osErr = true
    · simp only [he, if_true]
      exact hf
    · simp only [Bool.not_eq_true] at he
      by_cases hold : now - g.mtime > maxAge
      · have hgmem : g ∈ fs := List.mem_of_find?_eq_some hfind
        have hgp : g.path = p := by simpa using List.find?_some hfind
        simp only [he, hold, if_true, Bool.false_eq_true, if_false, osRemove, hfind]
        apply List.mem_filter.mpr
        refine ⟨hf, ?_⟩
        simp only [decide_eq_true_eq]
        intro hfp
        have hfg : f = g := List.inj_on_of_nodup_map hnd hf hgmem (by rw [hfp, hgp])
        subst hfg
        exact hcond ⟨hgp ▸ hp, he, hold⟩
      · simp only [he, hold, Bool.false_eq_true, if_false]
        exact hf

lemma keep_of_foldl_cleanupFile (now maxAge : ℚ) :
    ∀ (l : List String) (fs : FS),
      (∀ p ∈ l, strEndsWith p ".pdf" = true) →
      (fs.map TempFile.path).Nodup →
      ∀ f ∈ fs,
        ¬(strEndsWith f.path ".pdf" = true ∧ f.osErr = false ∧
          now - f.mtime > maxAge) →
        f ∈ l.foldl (cleanupFile now maxAge) fs := by
  intro l
  induction l with
  | nil =>
    intro fs _ _ f hf _
    simpa using hf
  | cons p rest ih =>
    intro fs hl hnd f hf hcond
    simp only [List.foldl_cons]
    exact ih (cleanupFile now maxAge fs p)
      (fun q hq => hl q (List.mem_cons_of_mem p hq))
      (pathsNodup_cleanupFile now maxAge fs p hnd)
      f (mem_cleanupFile now maxAge fs p hnd (hl p (List.mem_cons_self p rest)) f hf hcond)
      hcond

lemma mem_globPdf_endsWith (fs : FS) :
    ∀ p ∈ globPdf fs, strEndsWith p ".pdf" = true := by
  intro p hp
  simp only [globPdf, List.mem_map, List.mem_filter] at hp
  obtain ⟨g, ⟨_, hends⟩, rfl⟩ := hp
  exact hends

/-- **C9.** Both cleanup operations are total functions of the directory
state (they never propagate an error to the caller, which the embedding
states by their plain `FS → FS` types over the raising primitive
`osRemove`): `safe_remove` removes at most the entries at the named path —
every other file survives — and the age sweep never adds files and, over a
directory without duplicate paths, removes only tracked `.pdf` files that
are error-free and strictly older than `maxAge`. -/
theorem cleanup_best_effort :
    (∀ (p : String) (fs : FS), (safe_remove p fs).Sublist fs) ∧
    (∀ (p : String) (fs : FS) (f : TempFile), f ∈ fs → f.path ≠ p →
      f ∈ safe_remove p fs) ∧
    (∀ (now maxAge : ℚ) (fs : FS), (cleanup_old_files now maxAge fs).Sublist fs) ∧
    (∀ (now maxAge : ℚ) (fs : FS) (f : TempFile),
      (fs.map TempFile.path).Nodup → f ∈ fs →
      ¬(strEndsWith f.path ".pdf" = true ∧ f.osErr = false ∧
        now - f.mtime > maxAge) →
      f ∈ cleanup_old_files now maxAge fs) := by
  refine ⟨?_, ?_, ?_, ?_⟩
  · intro p fs
    rcases safe_remove_eq_or p fs with h | h <;> rw [h]
    exact List.filter_sublist fs
  · intro p fs f hf hne
    rcases safe_remove_eq_or p fs with h | h <;> rw [h]
    · exact hf
    · exact List.mem_filter.mpr ⟨hf, by simpa using hne⟩
  · intro now maxAge fs
    exact foldl_cleanupFile_sublist now maxAge (globPdf fs) fs
  · intro now maxAge fs f hnd hf hcond
    exact keep_of_foldl_cleanupFile now maxAge (globPdf fs) fs
      (mem_globPdf_endsWith fs) hnd f hf hcond

/-- Witness for `cleanup_best_effort`: in a two-file directory, removing one
path keeps the other, and a sweep with `now = 1000`, `maxAge = 200` keeps the
young file (`mtime = 900`). -/
theorem cleanup_best_effort_witness :
    ((⟨"/tmp/pdf-compressor/b.pdf", 900, [], false⟩ : TempFile) ∈
        ([⟨"/tmp/pdf-compressor/a.pdf", 0, [], false⟩,
          ⟨"/tmp/pdf-compressor/b.pdf", 900, [], false⟩] : FS) ∧
      TempFile.path ⟨"/tmp/pdf-compressor/b.pdf", 900, [], false⟩ ≠
        "/tmp/pdf-compressor/a.pdf" ∧
      (⟨"/tmp/pdf-compressor/b.pdf", 900, [], false⟩ : TempFile) ∈
        safe_remove "/tmp/pdf-compressor/a.pdf"
          [⟨"/tmp/pdf-compressor/a.pdf", 0, [], false⟩,
           ⟨"/tmp/pdf-compressor/b.pdf", 900, [], false⟩]) ∧
    ((([⟨"/tmp/pdf-compressor/a.pdf", 0, [], false⟩,
        ⟨"/tmp/pdf-compressor/b.pdf", 900, [], false⟩] : FS).map TempFile.path).Nodup ∧
      ¬(strEndsWith "/tmp/pdf-compressor/b.pdf" ".pdf" = true ∧ false = false ∧
        (1000 : ℚ) - 900 > 200) ∧
      (⟨"/tmp/pdf-compressor/b.pdf", 900, [], false⟩ : TempFile) ∈
        cleanup_old_files 1000 200
          [⟨"/tmp/pdf-compressor/a.pdf", 0, [], false⟩,
           ⟨"/tmp/pdf-compressor/b.pdf", 900, [], false⟩]) :=
  ⟨⟨by decide, by decide,
      cleanup_best_effort.2.1 "/tmp/pdf-compressor/a.pdf"
        [⟨"/tmp/pdf-compressor/a.pdf", 0, [], false⟩,
         ⟨"/tmp/pdf-compressor/b.pdf", 900, [], false⟩]
        ⟨"/tmp/pdf-compressor/b.pdf", 900, [], false⟩ (by decide) (by decide)⟩,
    ⟨by decide, fun h => absurd h.2.2 (by norm_num),
      cleanup_best_effort.2.2.2 1000 200
        [⟨"/tmp/pdf-compressor/a.pdf", 0, [], false⟩,
         ⟨"/tmp/pdf-compressor/b.pdf", 900, [], false⟩]
        ⟨"/tmp/pdf-compressor/b.pdf", 900, [], false⟩ (by decide) (by decide)
        (fun h => absurd h.2.2 (by norm_num))⟩⟩

end PdfCompressor
